import Mathlib

/-!
Shallow embedding of `src/omoa.py` (Mycomind Daemon — Ollama mixture-of-agents
orchestrator with memory and RAG). External collaborators (the completion
function `generate_with_references`, DuckDuckGo search, the trafilatura
fetch/extract pair, the `json` module, the ColBERT RAG index, the text
splitter and the file readers) are modelled as an explicit environment of
oracle functions, following the interface contracts of the specification
(spec §6); the repository code itself is translated function by function.
-/

namespace Omoa

/-- Leading-sequence test on character lists: `seqLeads p l` holds when `p`
is an initial segment of `l` (structural recursion, kernel friendly). -/
def seqLeads : List Char → List Char → Bool
  | [], _ => true
  | _ :: _, [] => false
  | a :: as, b :: bs => a == b && seqLeads as bs

/-- Split a character list at the first occurrence of `pat`: returns the part
before the occurrence and the part after it, or `none` when `pat` does not
occur. -/
def findSplit (pat : List Char) : List Char → Option (List Char × List Char)
  | [] => if pat.isEmpty then some ([], []) else none
  | c :: rest =>
    if seqLeads pat (c :: rest) then some ([], (c :: rest).drop pat.length)
    else
      match findSplit pat rest with
      | some (pre, post) => some (c :: pre, post)
      | none => none

/-- Python `pat in s` substring test. -/
def strContains (s pat : String) : Bool := (findSplit pat.data s.data).isSome

/-- Python `s.split(sep, 1)[1]`: everything after the first occurrence of
`sep` (empty when `sep` does not occur; only used under a `strContains`
guard, as in the source). -/
def afterFirst (s sep : String) : String :=
  match findSplit sep.data s.data with
  | some (_, post) => ⟨post⟩
  | none => ""

/-- Python `s.split(sep, 1)[0]`: everything before the first occurrence of
`sep` (the whole string when `sep` does not occur). -/
def beforeFirst (s sep : String) : String :=
  match findSplit sep.data s.data with
  | some (pre, _) => ⟨pre⟩
  | none => s

/-- Python `s.strip()`. -/
def strTrim (s : String) : String :=
  ⟨((s.data.dropWhile Char.isWhitespace).reverse.dropWhile Char.isWhitespace).reverse⟩

/-- Python `s.startswith(pre)`. -/
def strStartsWith (s pre : String) : Bool := seqLeads pre.data s.data

/-- Python `s.lower()`. -/
def strLower (s : String) : String := ⟨s.data.map Char.toLower⟩

/-- Python `sep.join(parts)`. -/
def strIntercalate (sep : String) : List String → String
  | [] => ""
  | [x] => x
  | x :: y :: xs => x ++ sep ++ strIntercalate sep (y :: xs)

/-- Concatenation of a list of strings (the `result_string += ...` loop). -/
def strConcat (parts : List String) : String := parts.foldl (fun a b => a ++ b) ""

/-- Python `s.split(c)` for a one-character separator. -/
def splitOnChar (c : Char) : List Char → List (List Char)
  | [] => [[]]
  | x :: xs =>
    match splitOnChar c xs with
    | [] => [[]]
    | h :: t => if x == c then [] :: h :: t else (x :: h) :: t

/-- Decimal digits of a natural number (fuel-based, kernel friendly). -/
def natToCharsAux : Nat → Nat → List Char
  | 0, _ => []
  | fuel + 1, n =>
    if n < 10 then [Char.ofNat (48 + n)]
    else natToCharsAux fuel (n / 10) ++ [Char.ofNat (48 + n % 10)]

/-- Decimal rendering of a natural number, standing in for Python `str(n)`. -/
def natToString (n : Nat) : String := ⟨natToCharsAux (n + 1) n⟩

/-- A chat message as passed to the completion function; `role` is one of the
literal strings `"system"`, `"user"`, `"assistant"` used in the source. -/
structure Message where
  role : String
  content : String
deriving DecidableEq

/-- The `Roles` enumeration from `llama_cpp_agent.chat_history.messages`, as
used for the event memory (`Roles.user` / `Roles.assistant` in the source). -/
inductive Role
  | user
  | assistant
deriving DecidableEq

/-- Outcome of one trafilatura fetch+extract of a URL, covering the behaviors
the external collaborator can exhibit at the interface of spec §4.2/§6:
fetch failure (`fetch_url` returns `None`), extraction failure (`extract`
falsy), JSON decode failure of the extraction payload, or an extracted
title/content pair (the content may be empty). -/
inductive FetchOutcome
  | fetchFailed
  | noExtract
  | parseError
  | extracted (title : String) (content : String)

/-- A JSON value, for modelling the `json` module at the query-extension
parse boundary. -/
inductive Json
  | null
  | bool (b : Bool)
  | num (n : Int)
  | str (s : String)
  | arr (elems : List Json)
  | obj (fields : List (String × Json))

/-- True on the scalar JSON values: neither an object nor a list. -/
def Json.isScalar : Json → Bool
  | Json.null => true
  | Json.bool _ => true
  | Json.num _ => true
  | Json.str _ => true
  | Json.arr _ => false
  | Json.obj _ => false

/-- The pydantic `QueryItem` model (lines 143-145). -/
structure QueryItem where
  query : String
  type : String
deriving DecidableEq

/-- Construction data of an `OllamaAgent` (lines 114-118). -/
structure OllamaAgent where
  model : String
  name : String
  system_prompt : String
deriving DecidableEq

/-- The environment of external collaborators, per spec §6:
`generate` is the opaque completion function `generate_with_references`
(the temperature / max-token sampling parameters passed by the synthesis
call do not change which text function is modelled); `ddgs` returns the
result URLs of a DuckDuckGo text search; `fetch` is the trafilatura
fetch+extract pair; `jsonDump` is the `json.loads`-then-`json.dumps`
roundtrip on agent output (`none` models `JSONDecodeError`); `parseJson` is
`json.loads` at the query-extension boundary (`none` models
`JSONDecodeError`); `retrieve` is `RAGColbertReranker.retrieve_documents`
over the current archival contents; `readTxt`/`readPdf`/`readCsv` are the
document readers (`none` models a raised exception); `splitText` is the
`RecursiveCharacterTextSplitter`. -/
structure Env where
  generate : String → List Message → String
  ddgs : String → List String
  fetch : String → FetchOutcome
  jsonDump : String → Option String
  parseJson : String → Option Json
  retrieve : List String → String → Nat → List String
  readTxt : String → Option String
  readPdf : String → Option String
  readCsv : String → Option String
  splitText : String → List String

/-- The core-memory document: an insertion-ordered mapping of section name to
an insertion-ordered mapping of key to value (Python dict of dicts). -/
abbrev CoreMemory := List (String × List (String × String))

/-- Python dict assignment `m[k] = v`: replace in place when the key exists,
append otherwise (dicts preserve insertion order). -/
def assocSet (m : List (String × String)) (k v : String) : List (String × String) :=
  if (m.lookup k).isSome then m.map (fun p => if p.1 == k then (k, v) else p)
  else m ++ [(k, v)]

/-- Replace the mapping of section `s` in the core-memory document. -/
def setSection (cm : CoreMemory) (s : String) (sec : List (String × String)) : CoreMemory :=
  cm.map (fun p => if p.1 == s then (s, sec) else p)

/-- The empty three-section core-memory shape of lines 169 and 201. -/
def empty_core_memory : CoreMemory := [("persona", []), ("user", []), ("scratchpad", [])]

/-- The mutable state of an `OllamaMixtureOfAgents` instance: its agents, the
web-search toggle, the in-memory core-memory document together with the
document held by the file-backed `AgentCoreMemory` store (the external
collaborator of spec §4.4, kept in `core_memory_store`), the event log, the
archival index contents in insertion order, and the `document_count`
counter of line 179. -/
structure MixtureState where
  reference_agents : List OllamaAgent
  final_agent : OllamaAgent
  web_search_enabled : Bool
  core_memory : CoreMemory
  core_memory_store : CoreMemory
  event_log : List (Role × String)
  rag : List String
  document_count : Nat
deriving DecidableEq

/-- Lines 72-100, `get_website_content_from_url`. The body first executes
`config = use_config()`, but the name `use_config` is never imported
anywhere in the module, so every call raises `NameError`, which the final
`except Exception as e` handler at line 99 converts to the generic error
string. The fetch/extract logic below line 75 is unreachable. -/
def get_website_content_from_url (url : String) : String :=
  "An error occurred while processing " ++ url ++ ": name \x27use_config\x27 is not defined"

/-- The per-URL evidence block format of line 92. -/
def websiteBlock (title url content : String) : String :=
  "=========== Website Title: " ++ title ++ " ===========\n\n=========== Website URL: " ++ url ++ " ===========\n\n=========== Website Content ===========\n\n" ++ content ++ "\n\n=========== Website Content End ===========\n\n"

/-- Lines 80-100 of `get_website_content_from_url` as written — the code that
would run if `use_config` were imported: fetch the URL, extract readable
content, and substitute a descriptive notice on fetch failure, empty or
failed extraction, or JSON decode failure. Unreachable in the delivered
module; used only to state the divergence of claim C7. -/
def get_website_content_body (env : Env) (url : String) : String :=
  match env.fetch url with
  | FetchOutcome.fetchFailed => "Failed to fetch content from " ++ url
  | FetchOutcome.parseError => "Failed to parse content from " ++ url
  | FetchOutcome.noExtract => "No content could be extracted from " ++ url
  | FetchOutcome.extracted title content =>
    if content = "" then "No content could be extracted from " ++ url
    else websiteBlock title url content

/-- Lines 103-107: the per-URL info blocks accumulated by `search_web`
(each block already carries the `"\n\n"` terminator added at line 107). -/
def webInfoBlocks (env : Env) (search_query : String) : List String :=
  (env.ddgs search_query).map (fun href => get_website_content_from_url href ++ "\n\n")

/-- Lines 102-112, `search_web`. -/
def search_web (env : Env) (search_query : String) : String :=
  let result_string := strConcat (webInfoBlocks env search_query)
  if strTrim result_string ≠ "" then
    "Based on the following results:\n\n" ++ result_string
  else
    "No relevant information found from the web search."

/-- The result of one `OllamaAgent.generate_response` call, together with the
trace of the external calls its straight-line body performs: the search
queries passed to `search_web` (in order) and the number of invocations of
the completion function. -/
structure AgentResult where
  response : String
  web_search_performed : Bool
  searchQueries : List String
  completionCalls : Nat
deriving DecidableEq

/-- Lines 121-124: the initial two-message exchange of `generate_response`. -/
def initial_messages (a : OllamaAgent) (message : String) : List Message :=
  [⟨"system", a.system_prompt⟩, ⟨"user", message⟩]

/-- Line 130: `response.split("[SEARCH:", 1)[1].split("]", 1)[0].strip()`. -/
def extract_search_query (response : String) : String :=
  strTrim (beforeFirst (afterFirst response "[SEARCH:") "]")

/-- Lines 136-141: `json.loads` then `json.dumps` roundtrip, returning the
raw text unchanged on `JSONDecodeError`. -/
def jsonRoundtrip (env : Env) (s : String) : String := (env.jsonDump s).getD s

/-- Lines 120-141, `OllamaAgent.generate_response`: one completion call, at
most one search round when the raw response contains the `"[SEARCH:"`
marker, then the JSON roundtrip of the (possibly search-augmented)
response. -/
def OllamaAgent.generate_response (env : Env) (a : OllamaAgent) (message : String) : AgentResult :=
  let messages := initial_messages a message
  let response := env.generate a.model messages
  if strContains response "[SEARCH:" then
    let search_query := extract_search_query response
    let search_results := search_web env search_query
    let messages2 := messages ++
      [⟨"assistant", response⟩,
       ⟨"user", "Here are the search results for \x27" ++ search_query ++ "\x27:\n\n" ++
          search_results ++ "\n\nPlease provide an updated response based on this information."⟩]
    let response2 := env.generate a.model messages2
    { response := jsonRoundtrip env response2
      web_search_performed := true
      searchQueries := [search_query]
      completionCalls := 2 }
  else
    { response := jsonRoundtrip env response
      web_search_performed := false
      searchQueries := []
      completionCalls := 1 }

/-- Lines 190-195, `OllamaMixtureOfAgents.update_memory`: append the event
to the event memory and add the message as a document to the RAG archival
index. Note `document_count` is not touched here. -/
def update_memory (st : MixtureState) (message : String) (role : Role) : MixtureState :=
  { st with
    event_log := st.event_log ++ [(role, message)]
    rag := st.rag ++ [message] }

/-- Lines 197-198, `load_core_memory`: read the document back from the
file-backed `AgentCoreMemory` store (the external collaborator of spec
§4.4, whose held document is `core_memory_store`). -/
def load_core_memory (st : MixtureState) : CoreMemory := st.core_memory_store

/-- Lines 200-211, `clear_core_memory`: reset both the in-memory document
and the store (the method also writes the file through) and report. -/
def clear_core_memory (st : MixtureState) : MixtureState × String :=
  ({ st with core_memory := empty_core_memory, core_memory_store := empty_core_memory },
   "Core memory cleared successfully.")

/-- Lines 213-218, `edit_core_memory`: auto-create an absent section, set the
key, and push the updated document to the `AgentCoreMemory` store via
`update_core_memory`. -/
def edit_core_memory (st : MixtureState) (s k v : String) : MixtureState × String :=
  let cm0 := if (st.core_memory.lookup s).isSome then st.core_memory
             else st.core_memory ++ [(s, [])]
  let cm1 := setSection cm0 s (assocSet ((cm0.lookup s).getD []) k v)
  ({ st with core_memory := cm1, core_memory_store := cm1 },
   "Core memory updated: " ++ s ++ "." ++ k ++ " = " ++ v)

/-- Lines 234-242 of `upload_document`: the shared tail after the content has
been read — empty check, split, add every chunk and count it. -/
def uploadContent (env : Env) (st : MixtureState) (file_path content : String) :
    MixtureState × String :=
  if strTrim content = "" then (st, "The file is empty or could not be read.")
  else
    let splits := env.splitText content
    ({ st with
        rag := st.rag ++ splits
        document_count := st.document_count + splits.length },
     "Document " ++ file_path ++ " uploaded and processed successfully. Added " ++
       natToString splits.length ++ " chunks to archival memory.")

/-- Lines 220-244, `upload_document`: dispatch on the (lower-cased) last
dot-component of the path, read the content with the matching external
reader (`none` models the exception caught at line 243), then ingest. -/
def upload_document (env : Env) (st : MixtureState) (file_path : String) :
    MixtureState × String :=
  let ext := strLower ⟨(splitOnChar (Char.ofNat 46) file_path.data).getLastD []⟩
  if ext = "txt" then
    match env.readTxt file_path with
    | none => (st, "An error occurred while processing " ++ file_path)
    | some content => uploadContent env st file_path content
  else if ext = "pdf" then
    match env.readPdf file_path with
    | none => (st, "An error occurred while processing " ++ file_path)
    | some content => uploadContent env st file_path content
  else if ext = "csv" then
    match env.readCsv file_path with
    | none => (st, "An error occurred while processing " ++ file_path)
    | some content => uploadContent env st file_path content
  else (st, "Unsupported file type: " ++ ext)

/-- Result of `search_archival_memory`, carrying the `k` that was passed to
the similarity index (line 373 passes the literal `k=5`). -/
structure SearchResult where
  results : List String
  requestedK : Nat

/-- Lines 372-373, `search_archival_memory`. -/
def search_archival_memory (env : Env) (st : MixtureState) (query : String) : SearchResult :=
  { results := env.retrieve st.rag query 5
    requestedK := 5 }

/-- Lines 375-380, `add_to_archival_memory`. -/
def add_to_archival_memory (st : MixtureState) (content : String) : MixtureState × String :=
  if strTrim content ≠ "" then
    ({ st with rag := st.rag ++ [content], document_count := st.document_count + 1 },
     "Added to archival memory: " ++ content)
  else (st, "Failed to add empty content to archival memory.")

/-- Lines 382-388, `clear_archival_memory`. -/
def clear_archival_memory (st : MixtureState) : MixtureState × String :=
  ({ st with rag := [], document_count := 0 }, "Archival memory cleared successfully.")

/-- Lines 390-395, `edit_archival_memory`: add-only, the old content is not
removed. -/
def edit_archival_memory (st : MixtureState) (old_content new_content : String) :
    MixtureState × String :=
  ({ st with rag := st.rag ++ [new_content], document_count := st.document_count + 1 },
   "New content \x27" ++ new_content ++ "\x27 added to archival memory. Note: Old content not removed due to limitations of the current implementation.")

/-- Rendering of one core-memory section, standing in for the inner part of
`json.dumps(self.core_memory, indent=2)` (the exact whitespace of the dump
is immaterial to every claim). -/
def dumpSection (sec : List (String × String)) : String :=
  "\x7b" ++ strIntercalate ", " (sec.map (fun p => "\x22" ++ p.1 ++ "\x22: \x22" ++ p.2 ++ "\x22")) ++ "\x7d"

/-- Rendering of the core-memory document, standing in for
`json.dumps(self.core_memory, indent=2)`. -/
def dumpCoreMemory (cm : CoreMemory) : String :=
  "\x7b" ++ strIntercalate ", " (cm.map (fun p => "\x22" ++ p.1 ++ "\x22: " ++ dumpSection p.2)) ++ "\x7d"

/-- Lines 368-370, `update_memory_section`: the archival count shown is
`document_count`, the history size is the number of events in the event
memory. -/
def update_memory_section (st : MixtureState) : String :=
  "Archival Memories:" ++ natToString st.document_count ++
    "\nConversation History Entries:" ++ natToString st.event_log.length ++
    "\n\nCore Memory Content:\n" ++ dumpCoreMemory st.core_memory

/-- Lines 286-290: the personality string drawn from the persona section
(`persona.get("personality", "No specific personality defined.")`). -/
def personalityOf (cm : CoreMemory) : String :=
  match cm.lookup "persona" with
  | some sec =>
    match sec.lookup "personality" with
    | some v => v
    | none => "No specific personality defined."
  | none => "No specific personality defined."

/-- Pydantic validation of one `QueryItem`: an object carrying string fields
`query` and `type`. -/
def validateQueryItem : Json → Option QueryItem
  | Json.obj fields =>
    match fields.lookup "query", fields.lookup "type" with
    | some (Json.str q), some (Json.str t) => some ⟨q, t⟩
    | _, _ => none
  | _ => none

/-- Pydantic validation of `QueryExtension` (lines 147-148): the `queries`
field must be a list of valid query items; when the field is absent the
`default_factory` yields the empty list; any other shape fails. -/
def validateQueryExtension : Json → Option (List QueryItem)
  | Json.obj fields =>
    match fields.lookup "queries" with
    | none => some []
    | some (Json.arr elems) => elems.mapM validateQueryItem
    | some _ => none
  | _ => none

/-- Lines 310-325: the query-extension parsing policy. A parse failure
(`JSONDecodeError`), a scalar payload (the `raise ValueError` caught by the
generic handler) or a validation failure all default to the empty query
collection; a list payload is wrapped as `{"queries": [...]}` before
validation. -/
def parseQueryExtension (env : Env) (extension_output : String) : List QueryItem :=
  match env.parseJson extension_output with
  | none => []
  | some j =>
    match j with
    | Json.obj fields => (validateQueryExtension (Json.obj fields)).getD []
    | Json.arr elems => (validateQueryExtension (Json.obj [("queries", Json.arr elems)])).getD []
    | _ => []

/-- Lines 305-306: the transient query-extension agent, built on the model of
the final agent. -/
def query_extension_agent_for (model : String) : OllamaAgent :=
  ⟨model, "QueryExtensionAgent",
   "You are a world class query extension algorithm capable of extending queries by writing new queries. Do not answer the queries, simply provide a list of additional queries in JSON format."⟩

/-- Lines 305-325: the expansion queries obtained for one turn — the
extension agent is invoked on the wrapped input and its output parsed with
the policy of `parseQueryExtension`. -/
def extension_queries (env : Env) (model : String) (input_message : String) : List QueryItem :=
  parseQueryExtension env
    ((OllamaAgent.generate_response env (query_extension_agent_for model)
        ("Consider the following query: " ++ input_message)).response)

/-- Lines 327-343: assembly of the retrieval-context prompt — top-k chunks
for the original input (k = min(3, max(1, document_count))), then for each
expansion query with verbatim-substring dedup against the accumulating
prompt, then the question. -/
def context_prompt (env : Env) (st : MixtureState) (input_message : String)
    (queries : List QueryItem) : String :=
  let k := min 3 (max 1 st.document_count)
  let documents := env.retrieve st.rag input_message k
  let prompt := "Consider the following context:\n==========Context===========\n"
  let prompt :=
    if documents.isEmpty then prompt ++ "No relevant documents found in archival memory.\n\n"
    else documents.foldl (fun p d => p ++ d ++ "\n\n") prompt
  let prompt := queries.foldl
    (fun p qi =>
      (env.retrieve st.rag qi.query (min 3 (max 1 st.document_count))).foldl
        (fun p2 d => if strContains p2 d then p2 else p2 ++ d ++ "\n\n") p)
    prompt
  prompt ++ "\n======================\nQuestion: " ++ input_message

/-- Lines 267-268: the concurrent fan-out, joined — the gathered results in
agent order (reference agents share no mutable state, so the join of the
cooperative tasks is their pointwise results). -/
def fanout_results (env : Env) (st : MixtureState) (input_message : String) : List AgentResult :=
  st.reference_agents.map (fun a => OllamaAgent.generate_response env a input_message)

/-- Lines 270-275: the surviving reference outputs — those whose text does
not start with the reserved `"Error:"` prefix (the completion function of
spec §6 returns text, so the defensive `is not None` test of line 273
cannot fire). -/
def surviving_references (env : Env) (st : MixtureState) (input_message : String) : List String :=
  ((fanout_results env st input_message).filter
      (fun r => !(strStartsWith r.response "Error:"))).map (fun r => r.response)

/-- The result of one `get_response` turn together with its observable trace:
the final state, whether the fan-in abort of line 277 was taken, the
(query, k) pairs requested from the archival index, the message list of the
synthesis completion call (`none` when aborted), the pre-overwrite prompt
built at lines 281-302, whether the direct web evidence was appended to it,
and the expansion queries of the turn. -/
structure TurnResult where
  response : String
  web_search_performed : Bool
  state : MixtureState
  aborted : Bool
  retrievalRequests : List (String × Nat)
  finalPrompt : Option (List Message)
  preFinalPrompt : List Message
  directEvidenceAppended : Bool
  expansionQueries : List QueryItem

/-- Lines 262-362, `OllamaMixtureOfAgents.get_response`: ingest the user
turn, fan out to the reference agents, abort when no reference survives,
otherwise build the (later overwritten) reference prompt, optionally run
the direct web search, expand the query, assemble the retrieval context,
overwrite the prompt with it at lines 346-349, synthesize, and commit the
assistant turn. -/
def get_response (env : Env) (st : MixtureState) (input_message : String) : TurnResult :=
  let st1 := update_memory st input_message Role.user
  let results := fanout_results env st1 input_message
  let references := surviving_references env st1 input_message
  let web0 := results.foldl (fun acc r => acc || r.web_search_performed) false
  if references.isEmpty then
    { response := "Error: All reference agents failed to generate responses."
      web_search_performed := false
      state := st1
      aborted := true
      retrievalRequests := []
      finalPrompt := none
      preFinalPrompt := []
      directEvidenceAppended := false
      expansionQueries := [] }
  else
    let fp0 : List Message :=
      [⟨"system", st1.final_agent.system_prompt⟩,
       ⟨"system", "Personality: " ++ personalityOf st1.core_memory⟩,
       ⟨"user", input_message⟩,
       ⟨"system", "References:\n" ++ strIntercalate "\n" references⟩,
       ⟨"system", update_memory_section st1⟩]
    let directSearch := if st1.web_search_enabled then some (search_web env input_message) else none
    let appended := (directSearch.map
        (fun sr => strContains sr "Based on the following results:")).getD false
    let web1 := web0 || appended
    let fp1 :=
      if appended then
        fp0 ++ [⟨"system", "Web Search Results:\n" ++ search_web env input_message⟩]
      else fp0
    let queries := extension_queries env st1.final_agent.model input_message
    let k := min 3 (max 1 st1.document_count)
    let prompt := context_prompt env st1 input_message queries
    let final_prompt : List Message :=
      [⟨"system", st1.final_agent.system_prompt⟩, ⟨"user", prompt⟩]
    let final_response := env.generate st1.final_agent.model final_prompt
    let st2 := update_memory st1 final_response Role.assistant
    { response := final_response
      web_search_performed := web1
      state := st2
      aborted := false
      retrievalRequests := (input_message, k) :: queries.map (fun qi => (qi.query, k))
      finalPrompt := some final_prompt
      preFinalPrompt := fp1
      directEvidenceAppended := appended
      expansionQueries := queries }


/-- A sample reference agent used by the concrete witnesses. -/
def agentOk : OllamaAgent := ⟨"m1", "AnalyticalAgent", "sys"⟩

/-- A benign concrete environment: every completion returns `"ok"`, the web
search returns no results, JSON parsing fails (so the query extension is
empty), retrieval returns nothing. -/
def envOk : Env :=
  { generate := fun _ _ => "ok"
    ddgs := fun _ => []
    fetch := fun _ => FetchOutcome.fetchFailed
    jsonDump := fun _ => none
    parseJson := fun _ => none
    retrieve := fun _ _ _ => []
    readTxt := fun _ => none
    readPdf := fun _ => none
    readCsv := fun _ => none
    splitText := fun _ => [] }

/-- A concrete orchestrator state with one reference agent, empty memories
and the direct web search disabled. -/
def stOk : MixtureState :=
  { reference_agents := [agentOk]
    final_agent := ⟨"mf", "SynthesisAgent", "finalsys"⟩
    web_search_enabled := false
    core_memory := empty_core_memory
    core_memory_store := empty_core_memory
    event_log := []
    rag := []
    document_count := 0 }

/-- An environment in which every completion returns an error-prefixed
response, so every reference agent fails. -/
def envErr : Env := { envOk with generate := fun _ _ => "Error: model unavailable" }

/-- An environment in which the first completion of a call returns a
well-formed search trigger and the re-invoked completion returns a response
that again contains a trigger. -/
def envSearch : Env :=
  { envOk with generate := fun _ msgs =>
      if msgs.length == 2 then "[SEARCH: solar flares]" else "Updated [SEARCH: again] answer" }

/-- An environment in which the first completion of a call contains the
search marker with no closing delimiter. -/
def envNoClose : Env :=
  { envOk with generate := fun _ msgs =>
      if msgs.length == 2 then "Please [SEARCH: solar flares" else "done" }

/-- An environment in which fetching any URL succeeds with a title and a
nonempty content. -/
def envFetchOk : Env :=
  { envOk with fetch := fun _ => FetchOutcome.extracted "Example Domain" "Example content" }

/-- An environment in which reading a text file succeeds and the splitter
produces two chunks. -/
def envUp : Env :=
  { envOk with readTxt := fun _ => some "hello world", splitText := fun _ => ["hello", "world"] }

/-! Helper lemmas shared between the claim theorems. -/

lemma seqLeads_self_append (l m : List Char) : seqLeads l (l ++ m) = true := by
  induction l with
  | nil => rfl
  | cons a as ih => simp [seqLeads, ih]

lemma strStartsWith_append (pre rest : String) : strStartsWith (pre ++ rest) pre = true := by
  unfold strStartsWith
  have h : (pre ++ rest).data = pre.data ++ rest.data := by
    cases pre; cases rest; rfl
  rw [h]
  exact seqLeads_self_append _ _

lemma strAppend_assoc (a b c : String) : (a ++ b) ++ c = a ++ (b ++ c) := by
  rcases a with ⟨la⟩
  rcases b with ⟨lb⟩
  rcases c with ⟨lc⟩
  show String.mk ((la ++ lb) ++ lc) = String.mk (la ++ (lb ++ lc))
  rw [List.append_assoc]

lemma surviving_references_update (env : Env) (st : MixtureState) (m q : String) (r : Role) :
    surviving_references env (update_memory st m r) q = surviving_references env st q := rfl

lemma surviving_references_eq_nil (env : Env) (st : MixtureState) (msg : String)
    (h : ∀ a ∈ st.reference_agents,
        strStartsWith (OllamaAgent.generate_response env a msg).response "Error:" = true) :
    surviving_references env st msg = [] := by
  unfold surviving_references fanout_results
  rw [List.filter_eq_nil_iff.mpr, List.map_nil]
  intro r hr
  rcases List.mem_map.mp hr with ⟨a, ha, rfl⟩
  simp [h a ha]

lemma surviving_references_ne_nil (env : Env) (st : MixtureState) (msg : String)
    (h : ∃ a ∈ st.reference_agents,
        strStartsWith (OllamaAgent.generate_response env a msg).response "Error:" = false) :
    (surviving_references env st msg).isEmpty = false := by
  rcases h with ⟨a, ha, hresp⟩
  unfold surviving_references fanout_results
  rw [List.isEmpty_eq_false]
  intro hnil
  have hmem : OllamaAgent.generate_response env a msg ∈
      st.reference_agents.map (fun a => OllamaAgent.generate_response env a msg) :=
    List.mem_map_of_mem _ ha
  have hfil : OllamaAgent.generate_response env a msg ∈
      (st.reference_agents.map (fun a => OllamaAgent.generate_response env a msg)).filter
        (fun r => !(strStartsWith r.response "Error:")) := by
    rw [List.mem_filter]
    exact ⟨hmem, by simp [hresp]⟩
  have := List.mem_map_of_mem (fun r : AgentResult => r.response) hfil
  rw [hnil] at this
  exact absurd this (List.not_mem_nil _)

lemma retrieval_requests_k (env : Env) (st : MixtureState) (msg : String)
    (p : String × Nat) (hp : p ∈ (get_response env st msg).retrievalRequests) :
    p.2 = min 3 (max 1 st.document_count) := by
  simp only [get_response, surviving_references_update] at hp
  by_cases hc : (surviving_references env st msg).isEmpty
  · rw [if_pos hc] at hp
    simp at hp
  · rw [if_neg hc] at hp
    simp only [List.mem_cons] at hp
    rcases hp with h1 | h2
    · rw [h1]
      rfl
    · rcases List.mem_map.mp h2 with ⟨qi, _, rfl⟩
      rfl

lemma lookup_append_right (l : CoreMemory) (s : String) (x : List (String × String))
    (h : l.lookup s = none) : (l ++ [(s, x)]).lookup s = some x := by
  induction l with
  | nil => simp [List.lookup]
  | cons p t ih =>
    rcases p with ⟨a, b⟩
    cases hsa : s == a
    · simp only [List.cons_append, List.lookup, hsa] at h ⊢
      exact ih h
    · simp only [List.lookup, hsa] at h
      exact absurd h (by simp)

lemma lookup_setSection (cm : CoreMemory) (s : String) (sec : List (String × String))
    (h : (cm.lookup s).isSome = true) :
    (setSection cm s sec).lookup s = some sec := by
  induction cm with
  | nil => simp [List.lookup] at h
  | cons p t ih =>
    rcases p with ⟨a, b⟩
    cases hsa : s == a
    · have has : ((a, b).1 == s) = false := by
        simp only [beq_eq_false_iff_ne] at hsa ⊢
        exact fun he => hsa he.symm
      simp only [setSection, List.map_cons, has, if_neg, Bool.false_eq_true, ite_false]
      simp only [List.lookup, hsa] at h ⊢
      exact ih h
    · have has : ((a, b).1 == s) = true := by
        simp only [beq_iff_eq] at hsa ⊢
        exact hsa.symm
      simp only [setSection, List.map_cons, has, ite_true]
      simp [List.lookup]

lemma edit_core_memory_new_section (st : MixtureState) (s k v : String)
    (h : st.core_memory.lookup s = none) :
    (edit_core_memory st s k v).1.core_memory.lookup s = some [(k, v)] := by
  simp only [edit_core_memory]
  have hns : (st.core_memory.lookup s).isSome = false := by simp [h]
  rw [if_neg (by simp [hns])]
  have h2 : ((st.core_memory ++ [(s, [])]).lookup s) = some ([] : List (String × String)) :=
    lookup_append_right _ _ _ h
  rw [h2]
  have h3 : assocSet ((some ([] : List (String × String))).getD []) k v = [(k, v)] := by
    simp [assocSet, List.lookup]
  rw [h3]
  exact lookup_setSection _ _ _ (by simp [h2])

/-! Claim theorems. -/

/-- C1 (counterexample): the claim says a turn that aborts at the fan-in
phase leaves the archival chunk count unchanged. Concretely, with one
reference agent whose completion returns an error-prefixed response, the
turn aborts at fan-in, yet the chunk count after the turn is the count
before plus 1 — the user-ingestion chunk was committed at the start of the
turn, before fan-out — so "plus 0" is false. -/
theorem C1_counterexample :
    (get_response envErr stOk "hello").aborted = true
    ∧ (get_response envErr stOk "hello").state.rag.length = stOk.rag.length + 1
    ∧ stOk.rag.length + 1 ≠ stOk.rag.length + 0 := by
  refine ⟨by decide, by decide, by decide⟩

/-- C1 (amended): for every turn executed by `get_response`, the number of
archival chunks after the turn equals the number before plus exactly 2 if
the turn completes successfully (one chunk for the user ingestion, one for
the assistant commit), and plus exactly 1 if the turn aborts at the fan-in
phase because all reference agents failed (the user-ingestion chunk is
already committed before fan-out); no upload or direct-add can occur inside
the turn itself. -/
theorem C1_archival_delta (env : Env) (st : MixtureState) (msg : String) :
    (get_response env st msg).state.rag.length
      = st.rag.length + (if (get_response env st msg).aborted then 1 else 2) := by
  simp only [get_response, surviving_references_update]
  by_cases hc : (surviving_references env st msg).isEmpty
  · rw [if_pos hc]
    simp [update_memory]
  · rw [if_neg hc]
    simp [update_memory]

/-- C2: for every successful turn, the message list sent to the final
synthesis completion call is exactly the synthesis agent system prompt
followed by one user message consisting of the retrieval context plus the
original question (`context_prompt` ends with the question); in particular
the reference-agent outputs and the direct web-augmentation evidence
gathered earlier in the turn are not part of that final call input — the
prompt of lines 281-302 is overwritten at lines 346-349. -/
theorem C2_final_prompt_only_context (env : Env) (st : MixtureState) (msg : String)
    (h : (get_response env st msg).aborted = false) :
    (get_response env st msg).finalPrompt
      = some [⟨"system", st.final_agent.system_prompt⟩,
              ⟨"user", context_prompt env (update_memory st msg Role.user) msg
                  (get_response env st msg).expansionQueries⟩] := by
  simp only [get_response, surviving_references_update] at h ⊢
  by_cases hc : (surviving_references env st msg).isEmpty
  · rw [if_pos hc] at h
    exact absurd h (by simp)
  · rw [if_neg hc]
    rfl

/-- C2 (witness): a concrete successful turn whose final synthesis prompt is
exactly the two-message list. -/
theorem C2_witness :
    (get_response envOk stOk "hi").finalPrompt
      = some [⟨"system", stOk.final_agent.system_prompt⟩,
              ⟨"user", context_prompt envOk (update_memory stOk "hi" Role.user) "hi"
                  (get_response envOk stOk "hi").expansionQueries⟩] :=
  C2_final_prompt_only_context envOk stOk "hi" (by decide)

/-- C3: when every fan-out result begins with the reserved error prefix
`"Error:"` (the completion function of spec §6 returns text, so the
defensive `is not None` disjunct of line 273 is vacuous), `get_response`
returns the error-tagged result with the search flag `False` rather than
raising, and performs no archival commit and no event-log append for the
assistant turn — only the user-turn ingestion appears in the state. -/
theorem C3_all_agents_fail (env : Env) (st : MixtureState) (msg : String)
    (h : ∀ a ∈ st.reference_agents,
        strStartsWith (OllamaAgent.generate_response env a msg).response "Error:" = true) :
    (get_response env st msg).response = "Error: All reference agents failed to generate responses."
    ∧ (get_response env st msg).web_search_performed = false
    ∧ (get_response env st msg).state.rag = st.rag ++ [msg]
    ∧ (get_response env st msg).state.event_log = st.event_log ++ [(Role.user, msg)] := by
  have hnil : surviving_references env st msg = [] := surviving_references_eq_nil env st msg h
  have hc : (surviving_references env st msg).isEmpty := by simp [hnil]
  simp only [get_response, surviving_references_update]
  rw [if_pos hc]
  refine ⟨rfl, rfl, ?_, ?_⟩ <;> simp [update_memory]

/-- C3 (witness): the concrete all-agents-fail turn. -/
theorem C3_witness :
    (get_response envErr stOk "hi").response
      = "Error: All reference agents failed to generate responses."
    ∧ (get_response envErr stOk "hi").web_search_performed = false
    ∧ (get_response envErr stOk "hi").state.rag = stOk.rag ++ ["hi"]
    ∧ (get_response envErr stOk "hi").state.event_log = stOk.event_log ++ [(Role.user, "hi")] :=
  C3_all_agents_fail envErr stOk "hi" (by decide)

/-- C4: for every call to `OllamaAgent.generate_response` whose first
completion output contains the search-trigger marker, exactly one
web-augmentation call is made — with the query extracted between the marker
and its terminator — and exactly two completion invocations happen in total
(the initial one plus exactly one re-invocation); the body is straight-line,
so a second search round never occurs in the same call even if the
re-invoked response also contains a marker. -/
theorem C4_single_search_round (env : Env) (a : OllamaAgent) (msg : String)
    (h : strContains (env.generate a.model (initial_messages a msg)) "[SEARCH:" = true) :
    (OllamaAgent.generate_response env a msg).searchQueries
        = [extract_search_query (env.generate a.model (initial_messages a msg))]
    ∧ (OllamaAgent.generate_response env a msg).completionCalls = 2 := by
  simp only [OllamaAgent.generate_response]
  rw [if_pos h]
  exact ⟨rfl, rfl⟩

/-- C4 (witness): a first response `"[SEARCH: solar flares]"` triggers exactly
one search with query `"solar flares"` and exactly one re-invocation, even
though the re-invoked response again contains a marker. -/
theorem C4_witness :
    (OllamaAgent.generate_response envSearch agentOk "sun?").searchQueries = ["solar flares"]
    ∧ (OllamaAgent.generate_response envSearch agentOk "sun?").completionCalls = 2
    ∧ strContains (OllamaAgent.generate_response envSearch agentOk "sun?").response "[SEARCH:" = true := by
  have h := C4_single_search_round envSearch agentOk "sun?" (by decide)
  refine ⟨?_, h.2, by decide⟩
  rw [h.1]
  decide

/-- C5 (counterexample): the claim says the archival-search operation
internally requests k = min(3, max(1, chunk count)); with 0 chunks that
formula gives 1, but `search_archival_memory` passes the literal `k=5` to
the similarity index, so the claim is false for the archival-search
operation. -/
theorem C5_counterexample :
    stOk.document_count = 0
    ∧ (search_archival_memory envOk stOk "q").requestedK = 5
    ∧ min 3 (max 1 stOk.document_count) = 1
    ∧ (search_archival_memory envOk stOk "q").requestedK ≠ min 3 (max 1 stOk.document_count) := by
  refine ⟨rfl, rfl, by decide, by decide⟩

/-- C5 (amended): every retrieval performed by the turn pipeline requests
k = min(3, max(1, document_count)) from the similarity index, where
`document_count` is the counter at the start of the turn (the turn never
changes it); the archival-search operation instead requests a fixed k = 5
with no clamping. -/
theorem C5_retrieval_k :
    (∀ env st msg p, p ∈ (get_response env st msg).retrievalRequests →
        p.2 = min 3 (max 1 st.document_count))
    ∧ (∀ env st q, (search_archival_memory env st q).requestedK = 5) :=
  ⟨fun env st msg p hp => retrieval_requests_k env st msg p hp, fun _ _ _ => rfl⟩

/-- C5 (witness): a concrete turn over an empty archival memory requests
k = 1 for its only retrieval, and a concrete archival search requests 5. -/
theorem C5_witness :
    (("hi", 1) : String × Nat).2 = min 3 (max 1 stOk.document_count)
    ∧ (search_archival_memory envOk stOk "q").requestedK = 5 := by
  refine ⟨?_, ?_⟩
  · exact C5_retrieval_k.1 envOk stOk "hi" ("hi", 1) (by decide)
  · exact C5_retrieval_k.2 envOk stOk "q"

/-- C6: the query-expansion parsing policy — a structured-parse failure
yields the empty query collection; a scalar payload (the raised
`ValueError`, caught) yields the empty collection; a list payload is
wrapped as the query collection and validated, defaulting to empty on
validation failure; an object payload is validated against the
query-collection shape, defaulting to empty on validation failure; and
expansion failure is never fatal: a turn with at least one surviving
reference agent completes, and with an empty expansion it performs exactly
the original-query retrieval. -/
theorem C6_query_expansion_policy :
    (∀ env out, env.parseJson out = none → parseQueryExtension env out = [])
    ∧ (∀ env out j, env.parseJson out = some j → j.isScalar = true →
        parseQueryExtension env out = [])
    ∧ (∀ env out elems, env.parseJson out = some (Json.arr elems) →
        parseQueryExtension env out
          = (validateQueryExtension (Json.obj [("queries", Json.arr elems)])).getD [])
    ∧ (∀ env out fields, env.parseJson out = some (Json.obj fields) →
        parseQueryExtension env out = (validateQueryExtension (Json.obj fields)).getD [])
    ∧ (∀ env st msg, (∃ a ∈ st.reference_agents,
          strStartsWith (OllamaAgent.generate_response env a msg).response "Error:" = false) →
        (get_response env st msg).aborted = false)
    ∧ (∀ env st msg, extension_queries env st.final_agent.model msg = [] →
        (get_response env st msg).aborted = false →
        (get_response env st msg).retrievalRequests = [(msg, min 3 (max 1 st.document_count))]) := by
  refine ⟨?_, ?_, ?_, ?_, ?_, ?_⟩
  · intro env out h
    simp [parseQueryExtension, h]
  · intro env out j h hsc
    cases j <;> simp_all [parseQueryExtension, Json.isScalar]
  · intro env out elems h
    simp [parseQueryExtension, h]
  · intro env out fields h
    simp [parseQueryExtension, h]
  · intro env st msg hex
    have hc : (surviving_references env st msg).isEmpty = false :=
      surviving_references_ne_nil env st msg hex
    simp only [get_response, surviving_references_update]
    rw [if_neg (by simp [hc])]
  · intro env st msg hql habort
    simp only [get_response, surviving_references_update] at habort ⊢
    by_cases hc : (surviving_references env st msg).isEmpty
    · rw [if_pos hc] at habort
      exact absurd habort (by simp)
    · rw [if_neg hc]
      have hq : extension_queries env (update_memory st msg Role.user).final_agent.model msg = [] := hql
      simp [hq, hql, update_memory]

/-- C6 (witness): a malformed payload parses to the empty collection, and the
concrete turn (whose extension output fails to parse) still completes with
only the original-query retrieval. -/
theorem C6_witness :
    parseQueryExtension envOk "not json" = []
    ∧ (get_response envOk stOk "hi").aborted = false
    ∧ (get_response envOk stOk "hi").retrievalRequests = [("hi", min 3 (max 1 stOk.document_count))] := by
  refine ⟨C6_query_expansion_policy.1 envOk "not json" rfl, ?_, ?_⟩
  · exact C6_query_expansion_policy.2.2.2.2.1 envOk stOk "hi" ⟨agentOk, by decide, by decide⟩
  · exact C6_query_expansion_policy.2.2.2.2.2 envOk stOk "hi" (by decide) (by decide)

set_option maxRecDepth 8192 in
/-- C7 (code bug): the claim says each result URL is fetched and extracted,
with a descriptive failure notice substituted on fetch failure or empty
extraction. In the delivered code, `get_website_content_from_url` first
calls `use_config()`, a name never imported, so every call raises
`NameError` and returns the generic error notice without ever fetching:
clause 1 evaluates the delivered code on every URL; clauses 2-3 show the
unreachable body (the intent) produces an evidence block on a successful
fetch, different from what the delivered code returns; clause 4 shows the
marker-or-sentinel discriminator of `search_web` still holds; clause 5
shows the per-URL loop covers every search result without aborting. -/
theorem C7_website_content_bug :
    (∀ url : String, get_website_content_from_url url
        = "An error occurred while processing " ++ url ++ ": name \x27use_config\x27 is not defined")
    ∧ get_website_content_body envFetchOk "https://example.com"
        = websiteBlock "Example Domain" "https://example.com" "Example content"
    ∧ get_website_content_from_url "https://example.com"
        ≠ get_website_content_body envFetchOk "https://example.com"
    ∧ (∀ env q, strStartsWith (search_web env q) "Based on the following results:" = true
        ∨ search_web env q = "No relevant information found from the web search.")
    ∧ (∀ env q url, url ∈ env.ddgs q →
        (get_website_content_from_url url ++ "\n\n") ∈ webInfoBlocks env q) := by
  refine ⟨fun url => rfl, by decide, by decide, ?_, ?_⟩
  · intro env q
    simp only [search_web]
    split
    · left
      have hlit : ("Based on the following results:\n\n" : String)
          = "Based on the following results:" ++ "\n\n" := by decide
      rw [show ("Based on the following results:\n\n" ++ strConcat (webInfoBlocks env q) : String)
            = "Based on the following results:" ++ ("\n\n" ++ strConcat (webInfoBlocks env q)) from by
          rw [← strAppend_assoc, ← hlit]]
      exact strStartsWith_append _ _
    · right
      rfl
  · intro env q url hm
    exact List.mem_map_of_mem _ hm

/-- C8 (counterexample): the claim says a response containing the marker
without its closing delimiter does not trigger a search round. Concretely,
a first response `"Please [SEARCH: solar flares"` — which contains no `"]"`
at all — does trigger a search, with the trimmed remainder as the query. -/
theorem C8_counterexample :
    strContains (envNoClose.generate agentOk.model (initial_messages agentOk "q")) "]" = false
    ∧ (OllamaAgent.generate_response envNoClose agentOk "q").web_search_performed = true
    ∧ (OllamaAgent.generate_response envNoClose agentOk "q").searchQueries = ["solar flares"] := by
  refine ⟨by decide, by decide, by decide⟩

/-- C8 (amended): a search trigger is recognized as the literal marker
substring `"[SEARCH:"` alone — the closing delimiter is not required; when
the trigger fires, the query is the text after the marker up to the first
`"]"` when present, otherwise the trimmed remainder of the response. -/
theorem C8_search_trigger (env : Env) (a : OllamaAgent) (msg : String) :
    (OllamaAgent.generate_response env a msg).web_search_performed
        = strContains (env.generate a.model (initial_messages a msg)) "[SEARCH:"
    ∧ (OllamaAgent.generate_response env a msg).searchQueries
        = (if strContains (env.generate a.model (initial_messages a msg)) "[SEARCH:" then
            [extract_search_query (env.generate a.model (initial_messages a msg))] else []) := by
  simp only [OllamaAgent.generate_response]
  by_cases h : strContains (env.generate a.model (initial_messages a msg)) "[SEARCH:"
  · rw [if_pos h, if_pos h]
    simp [h]
  · rw [if_neg h, if_neg h]
    simp [h]

/-- C9: starting from the empty three-section core memory, editing
persona.tone to formal and then loading returns the document with exactly
that binding; clearing returns the document to the empty three-section
shape (also visible through a subsequent load); and an edit on a section
name not currently present auto-creates that section. -/
theorem C9_core_memory_scenario :
    load_core_memory (edit_core_memory stOk "persona" "tone" "formal").1
      = [("persona", [("tone", "formal")]), ("user", []), ("scratchpad", [])]
    ∧ (clear_core_memory (edit_core_memory stOk "persona" "tone" "formal").1).1.core_memory
      = empty_core_memory
    ∧ load_core_memory (clear_core_memory (edit_core_memory stOk "persona" "tone" "formal").1).1
      = empty_core_memory
    ∧ (∀ st : MixtureState, ∀ s k v : String, st.core_memory.lookup s = none →
        (edit_core_memory st s k v).1.core_memory.lookup s = some [(k, v)]) := by
  refine ⟨by decide, by decide, by decide, ?_⟩
  intro st s k v h
  exact edit_core_memory_new_section st s k v h

/-- C9 (witness): the auto-creation clause at a concrete absent section. -/
theorem C9_witness :
    (edit_core_memory stOk "notes" "k" "v").1.core_memory.lookup "notes" = some [("k", "v")] :=
  C9_core_memory_scenario.2.2.2 stOk "notes" "k" "v" (by decide)

/-- C10: the `document_count` frame — a `get_response` turn never changes it
(whether it completes or aborts), even though `update_memory` grows the
archival index by one chunk per call; it is incremented only by
`add_to_archival_memory` (on nonempty content; empty content leaves the
state unchanged), `edit_archival_memory`, and `upload_document` (by the
number of split chunks), and reset to 0 by `clear_archival_memory`; and the
turn-pipeline retrieval k-formula is computed over this counter, which
therefore excludes every turn-ingested chunk. -/
theorem C10_document_count_frame :
    (∀ env st msg, (get_response env st msg).state.document_count = st.document_count)
    ∧ (∀ st m r, (update_memory st m r).document_count = st.document_count
        ∧ (update_memory st m r).rag.length = st.rag.length + 1)
    ∧ (∀ st c, strTrim c ≠ "" →
        (add_to_archival_memory st c).1.document_count = st.document_count + 1)
    ∧ (∀ st c, strTrim c = "" → (add_to_archival_memory st c).1 = st)
    ∧ (∀ st, (clear_archival_memory st).1.document_count = 0)
    ∧ (∀ st oc nc, (edit_archival_memory st oc nc).1.document_count = st.document_count + 1)
    ∧ (∀ env st path content, env.readTxt path = some content →
        strLower ⟨(splitOnChar (Char.ofNat 46) path.data).getLastD []⟩ = "txt" →
        strTrim content ≠ "" →
        (upload_document env st path).1.document_count
          = st.document_count + (env.splitText content).length)
    ∧ (∀ env st msg p, p ∈ (get_response env st msg).retrievalRequests →
        p.2 = min 3 (max 1 st.document_count)) := by
  refine ⟨?_, ?_, ?_, ?_, ?_, ?_, ?_, ?_⟩
  · intro env st msg
    simp only [get_response, surviving_references_update]
    by_cases hc : (surviving_references env st msg).isEmpty
    · rw [if_pos hc]
      rfl
    · rw [if_neg hc]
      rfl
  · intro st m r
    exact ⟨rfl, by simp [update_memory]⟩
  · intro st c h
    simp [add_to_archival_memory, h]
  · intro st c h
    simp [add_to_archival_memory, h]
  · intro st
    rfl
  · intro st oc nc
    rfl
  · intro env st path content hread hext htrim
    simp only [upload_document]
    rw [if_pos hext, hread]
    simp only [uploadContent]
    rw [if_neg htrim]
  · exact fun env st msg p hp => retrieval_requests_k env st msg p hp

/-- C10 (witness): the hypothesis-bearing clauses at concrete inputs — a
nonempty direct add increments the counter, a whitespace-only add leaves
the state unchanged, a two-chunk text upload adds two, and the only
retrieval request of a concrete turn carries k = 1. -/
theorem C10_witness :
    (add_to_archival_memory stOk "note").1.document_count = stOk.document_count + 1
    ∧ (add_to_archival_memory stOk " ").1 = stOk
    ∧ (upload_document envUp stOk "notes.txt").1.document_count
        = stOk.document_count + (envUp.splitText "hello world").length
    ∧ (("hi", 1) : String × Nat).2 = min 3 (max 1 stOk.document_count) := by
  refine ⟨?_, ?_, ?_, ?_⟩
  · exact C10_document_count_frame.2.2.1 stOk "note" (by decide)
  · exact C10_document_count_frame.2.2.2.1 stOk " " (by decide)
  · exact C10_document_count_frame.2.2.2.2.2.2.1 envUp stOk "notes.txt" "hello world" rfl (by decide) (by decide)
  · exact C10_document_count_frame.2.2.2.2.2.2.2 envOk stOk "hi" ("hi", 1) (by decide)

end Omoa
